import Mathlib

/-!
Shallow embedding of the pybank repository (src/bank/bank.py, src/bank/errors.py).

Python integers are unbounded, so amounts are modelled as `Int`.
Transaction ids (`uuid.UUID`) and authorization codes (random digit strings
from `bank.utils`) are opaque tokens, modelled as `Nat`.

Randomness is external to the core logic: `random_authorization_code()` is
modelled by passing the generated code as an explicit argument to
`Account.authorize`.

Python exceptions are modelled by returning the post-mutation state together
with an optional error: a raised exception leaves every mutation performed
before the `raise` in place, so each `Account` operation returns
`Account × Option Err` where the first component is the state as it stands
when the operation returns or when the exception escapes.
-/

namespace PyBank

/-- Error kinds. Constructors up to `cannotCancelCapturedTransaction` mirror
the `BankError` subclasses of src/bank/errors.py.  `keyError` models Python's
built-in `KeyError`, raised by the raw dictionary lookup
`self.__transactions[transaction_id]` in `Account.capture` / `cancel` /
`refund` (errors.py defines no transaction-not-found class).
`specTransactionNotFound` is modelled from the spec: §7's error table lists a
`TransactionNotFound` kind that has no counterpart anywhere in the code; it is
included only so the spec's claim about it can be stated, and no operation in
this file ever produces it. -/
inductive Err where
  | cannotCaptureMoreThanAuthorized
  | cannotRefundMoreThanCaptured
  | insufficientFunds
  | invalidAmount
  | authorizationAlreadyCaptured
  | captureNotAuthorized
  | cancelationNotAuthorized
  | cannotCancelCapturedTransaction
  | accountNotFound
  | keyError
  | specTransactionNotFound
deriving DecidableEq, Repr

/-- `class Capture(BaseModel): amount: int`. -/
structure Capture where
  amount : Int
deriving DecidableEq, Repr

/-- `class Refund(BaseModel): amount: int`. -/
structure Refund where
  amount : Int
deriving DecidableEq, Repr

/-- `class Status(str, Enum)` with CREATED / AUTHORIZED / CANCELLED. -/
inductive Status where
  | created
  | authorized
  | cancelled
deriving DecidableEq, Repr

/-- The pydantic model `Transaction`.  In the source the `id` field default is
`uuid4()` — evaluated ONCE, when the class body is executed, so every
`Transaction` constructed without an explicit id (which is what
`Account.__add_transaction` does) carries the same token.  That single shared
token is modelled by the constant `defaultTransactionId` below.  The private
attributes `_captures` and `_refunds` both default to the empty list. -/
structure Transaction where
  id : Nat
  amount : Int
  status : Status
  authorization_code : Nat
  captures : List Capture
  refunds : List Refund
deriving DecidableEq, Repr

/-- The single value of `uuid4()` computed at class-definition time and shared
by every transaction as the default of the `id` field. -/
def defaultTransactionId : Nat := 0

/-- `sum(capture.amount for capture in self._captures)`. -/
def capturedAmount (t : Transaction) : Int :=
  (t.captures.map Capture.amount).sum

/-- `sum(refund.amount for refund in self._refunds)`. -/
def refundedAmount (t : Transaction) : Int :=
  (t.refunds.map Refund.amount).sum

/-- `Transaction.is_cancelled`. -/
def Transaction.is_cancelled (t : Transaction) : Bool :=
  t.status == Status.cancelled

/-- `Transaction.is_authorized`. -/
def Transaction.is_authorized (t : Transaction) : Bool :=
  t.status == Status.authorized

/-- `Transaction.has_captures`. -/
def Transaction.has_captures (t : Transaction) : Bool :=
  t.captures.length > 0

/-- `Transaction.capture(amount)`. On success the Python method appends a
`Capture(amount=amount)` record and returns it; here the updated transaction
(whose last capture is that record) is returned.  All checks precede the
mutation, so on error the transaction is unchanged. -/
def Transaction.capture (t : Transaction) (amount : Int) : Except Err Transaction :=
  if ¬ t.is_authorized then
    .error .captureNotAuthorized
  else if capturedAmount t + amount > t.amount then
    .error .cannotCaptureMoreThanAuthorized
  else
    .ok { t with captures := t.captures ++ [⟨amount⟩] }

/-- `Transaction.cancel()`: silently returns if already cancelled, otherwise
checks status and captures before transitioning to CANCELLED. -/
def Transaction.cancel (t : Transaction) : Except Err Transaction :=
  if t.is_cancelled then
    .ok t
  else if ¬ t.is_authorized then
    .error .cancelationNotAuthorized
  else if t.has_captures then
    .error .cannotCancelCapturedTransaction
  else
    .ok { t with status := Status.cancelled }

/-- `Transaction.refund(amount)`: no status check; only the cumulative-refund
bound guards the append. -/
def Transaction.refund (t : Transaction) (amount : Int) : Except Err Transaction :=
  if refundedAmount t + amount > capturedAmount t then
    .error .cannotRefundMoreThanCaptured
  else
    .ok { t with refunds := t.refunds ++ [⟨amount⟩] }

/-- The `Dict[UUID, Transaction]` of an account, as an association list in
insertion order.  `mapInsert` is dict assignment `d[k] = v` (replace in place
if the key is present, else append); `mapGet?` is dict lookup `d[k]`, with
`none` standing for the raised `KeyError`. -/
def mapInsert : List (Nat × Transaction) → Nat → Transaction → List (Nat × Transaction)
  | [], k, v => [(k, v)]
  | p :: ps, k, v => if p.1 == k then (k, v) :: ps else p :: mapInsert ps k v

/-- Dict lookup `d[k]`, `none` when the key is absent (Python raises
`KeyError`). -/
def mapGet? : List (Nat × Transaction) → Nat → Option Transaction
  | [], _ => none
  | p :: ps, k => if p.1 == k then some p.2 else mapGet? ps k

/-- `class Account` state: `__balance`, `__authorized_amount`,
`__transactions`.  The per-account `Lock` only serializes threads and has no
effect on the sequential semantics modelled here. -/
structure Account where
  balance : Int
  authorized_amount : Int
  transactions : List (Nat × Transaction)
deriving DecidableEq, Repr

/-- `Account.__init__(balance)`. -/
def Account.init (balance : Int) : Account :=
  { balance := balance, authorized_amount := 0, transactions := [] }

/-- `Account.__reduce_hold(amount)`. -/
def Account.reduce_hold (a : Account) (amount : Int) : Except Err Account :=
  if a.authorized_amount < amount then
    .error .insufficientFunds
  else
    .ok { a with authorized_amount := a.authorized_amount - amount }

/-- `Account.__authorize_amount(amount)`. -/
def Account.authorize_amount (a : Account) (amount : Int) : Except Err Account :=
  if amount < 0 then
    .error .invalidAmount
  else if a.balance ≥ amount then
    .ok { a with balance := a.balance - amount,
                 authorized_amount := a.authorized_amount + amount }
  else
    .error .insufficientFunds

/-- The transaction built by `Account.__add_transaction`: no explicit id, so
the shared class default is used; status AUTHORIZED; the authorization code
supplied by the external random generator. -/
def freshTransaction (amount : Int) (code : Nat) : Transaction :=
  { id := defaultTransactionId, amount := amount, status := Status.authorized,
    authorization_code := code, captures := [], refunds := [] }

/-- `Account.__add_transaction(amount)`, with the freshly generated
authorization code passed in explicitly. -/
def Account.add_transaction (a : Account) (amount : Int) (code : Nat) :
    Transaction × Account :=
  let t := freshTransaction amount code
  (t, { a with transactions := mapInsert a.transactions t.id t })

/-- `Account.deposit(amount)`. -/
def Account.deposit (a : Account) (amount : Int) : Account × Option Err :=
  if amount < 0 then (a, some .invalidAmount)
  else ({ a with balance := a.balance + amount }, none)

/-- `Account.withdraw(amount)`. -/
def Account.withdraw (a : Account) (amount : Int) : Account × Option Err :=
  if amount < 0 then (a, some .invalidAmount)
  else if a.balance < amount then (a, some .insufficientFunds)
  else ({ a with balance := a.balance - amount }, none)

/-- `Account.authorize(amount)`: validate and move the funds, then store a new
transaction and return its id.  `code` is the value produced by
`random_authorization_code()` for this call. -/
def Account.authorize (a : Account) (amount : Int) (code : Nat) :
    Option Nat × Account × Option Err :=
  match a.authorize_amount amount with
  | .error e => (none, a, some e)
  | .ok a1 =>
      let r := a1.add_transaction amount code
      (some r.1.id, r.2, none)

/-- `Account.capture(transaction_id, amount)`.  The Python method mutates the
stored transaction in place via `authorization.capture(amount)` BEFORE calling
`self.__reduce_hold(amount)`; if the hold reduction raises, the appended
capture record survives, which the middle branch reproduces. -/
def Account.capture (a : Account) (tid : Nat) (amount : Int) :
    Account × Option Err :=
  match mapGet? a.transactions tid with
  | none => (a, some .keyError)
  | some tx =>
      match tx.capture amount with
      | .error e => (a, some e)
      | .ok tx1 =>
          let a1 := { a with transactions := mapInsert a.transactions tid tx1 }
          match a1.reduce_hold amount with
          | .error e => (a1, some e)
          | .ok a2 => (a2, none)

/-- `Account.cancel(transaction_id)`.  After `authorization.cancel()` returns
(which it also does, silently, when the transaction is already cancelled), the
method unconditionally credits `balance` and debits `authorized_amount` by the
transaction's amount. -/
def Account.cancel (a : Account) (tid : Nat) : Account × Option Err :=
  match mapGet? a.transactions tid with
  | none => (a, some .keyError)
  | some tx =>
      match tx.cancel with
      | .error e => (a, some e)
      | .ok tx1 =>
          ({ a with transactions := mapInsert a.transactions tid tx1,
                    balance := a.balance + tx.amount,
                    authorized_amount := a.authorized_amount - tx.amount }, none)

/-- `Account.refund(transaction_id, amount)`. -/
def Account.refund (a : Account) (tid : Nat) (amount : Int) :
    Account × Option Err :=
  match mapGet? a.transactions tid with
  | none => (a, some .keyError)
  | some tx =>
      match tx.refund amount with
      | .error e => (a, some e)
      | .ok tx1 =>
          ({ a with transactions := mapInsert a.transactions tid tx1,
                    balance := a.balance + amount }, none)

/-- One public `Account` operation, for reasoning about call sequences.  The
`code` of an authorize call is the value the random generator returned for
that call. -/
inductive Op where
  | deposit (amount : Int)
  | withdraw (amount : Int)
  | authorize (amount : Int) (code : Nat)
  | capture (tid : Nat) (amount : Int)
  | cancel (tid : Nat)
  | refund (tid : Nat) (amount : Int)
deriving DecidableEq, Repr

/-- Apply one public operation, keeping the state in which the call returned
or in which its exception escaped. -/
def Account.step (a : Account) : Op → Account × Option Err
  | .deposit amt => a.deposit amt
  | .withdraw amt => a.withdraw amt
  | .authorize amt code => ((a.authorize amt code).2.1, (a.authorize amt code).2.2)
  | .capture tid amt => a.capture tid amt
  | .cancel tid => a.cancel tid
  | .refund tid amt => a.refund tid amt

/-- Run a sequence of public operations (each either succeeding or raising;
an exception is caught by the caller and the sequence continues). -/
def Account.run (a : Account) (ops : List Op) : Account :=
  ops.foldl (fun s op => (s.step op).1) a

/-- One call on a single `Transaction`: `t.capture(amount)` or
`t.refund(amount)`. -/
inductive TxOp where
  | capture (amount : Int)
  | refund (amount : Int)
deriving DecidableEq, Repr

/-- The amount argument of a transaction-level call. -/
def TxOp.amount : TxOp → Int
  | .capture amt => amt
  | .refund amt => amt

/-- Apply one transaction-level call; all checks in `Transaction.capture` and
`Transaction.refund` precede the append, so on error the transaction is
unchanged. -/
def Transaction.applyOp (t : Transaction) : TxOp → Transaction
  | .capture amt => match t.capture amt with
    | .ok t1 => t1
    | .error _ => t
  | .refund amt => match t.refund amt with
    | .ok t1 => t1
    | .error _ => t

/-- Run a sequence of capture/refund calls on one transaction. -/
def Transaction.runOps (t : Transaction) : List TxOp → Transaction
  | [] => t
  | op :: ops => (t.applyOp op).runOps ops

/-- The spec's per-transaction sum invariants:
`sum(captures) ≤ amount` and `sum(refunds) ≤ sum(captures)`. -/
def TxInv (t : Transaction) : Prop :=
  capturedAmount t ≤ t.amount ∧ refundedAmount t ≤ capturedAmount t

instance (t : Transaction) : Decidable (TxInv t) := by
  unfold TxInv; infer_instance

/-! ### Helper lemmas -/

/-- Dict lookup after dict assignment at the same key. -/
theorem mapGet_insert (m : List (Nat × Transaction)) (k : Nat) (v : Transaction) :
    mapGet? (mapInsert m k v) k = some v := by
  induction m with
  | nil => simp [mapInsert, mapGet?]
  | cons p ps ih =>
      by_cases h : p.1 = k
      · simp [mapInsert, mapGet?, h]
      · simp [mapInsert, mapGet?, h, ih]

/-- Appending a capture record adds its amount to the capture sum. -/
theorem capturedAmount_append (t : Transaction) (c : Capture) :
    capturedAmount { t with captures := t.captures ++ [c] } =
      capturedAmount t + c.amount := by
  simp [capturedAmount]

/-- Appending a capture record leaves the refund sum unchanged. -/
theorem refundedAmount_capture_append (t : Transaction) (c : Capture) :
    refundedAmount { t with captures := t.captures ++ [c] } = refundedAmount t := rfl

/-- Appending a refund record adds its amount to the refund sum. -/
theorem refundedAmount_append (t : Transaction) (r : Refund) :
    refundedAmount { t with refunds := t.refunds ++ [r] } =
      refundedAmount t + r.amount := by
  simp [refundedAmount]

/-- Appending a refund record leaves the capture sum unchanged. -/
theorem capturedAmount_refund_append (t : Transaction) (r : Refund) :
    capturedAmount { t with refunds := t.refunds ++ [r] } = capturedAmount t := rfl

/-- Characterization of a successful `Transaction.capture`. -/
theorem Transaction.capture_ok {t t1 : Transaction} {amt : Int}
    (h : t.capture amt = Except.ok t1) :
    t1 = { t with captures := t.captures ++ [⟨amt⟩] } ∧
    t.is_authorized = true ∧ capturedAmount t + amt ≤ t.amount := by
  unfold Transaction.capture at h
  split at h
  · exact Except.noConfusion h
  next ha =>
    split at h
    next hb => exact Except.noConfusion h
    next hb =>
      injection h with h1
      exact ⟨h1.symm, by simpa using ha, by omega⟩

/-- Characterization of a successful `Transaction.refund`. -/
theorem Transaction.refund_ok {t t1 : Transaction} {amt : Int}
    (h : t.refund amt = Except.ok t1) :
    t1 = { t with refunds := t.refunds ++ [⟨amt⟩] } ∧
    refundedAmount t + amt ≤ capturedAmount t := by
  unfold Transaction.refund at h
  split at h
  next hb => exact Except.noConfusion h
  next hb =>
    injection h with h1
    exact ⟨h1.symm, by omega⟩

/-- Cancelling the transaction built by `Account.__add_transaction` succeeds
and only flips the status. -/
theorem freshTransaction_cancel (amount : Int) (code : Nat) :
    (freshTransaction amount code).cancel =
      Except.ok { freshTransaction amount code with status := Status.cancelled } := rfl

/-- The id of a freshly built transaction is the shared class default. -/
theorem freshTransaction_id (amount : Int) (code : Nat) :
    (freshTransaction amount code).id = defaultTransactionId := rfl

/-- The authorized amount of a freshly built transaction. -/
theorem freshTransaction_amount (amount : Int) (code : Nat) :
    (freshTransaction amount code).amount = amount := rfl

/-- One capture/refund call preserves the per-transaction sum invariants when
its amount is non-negative. -/
theorem TxInv_applyOp {t : Transaction} {op : TxOp} (hI : TxInv t)
    (h : 0 ≤ op.amount) : TxInv (t.applyOp op) := by
  obtain ⟨h1, h2⟩ := hI
  cases op with
  | capture amt =>
      simp only [TxOp.amount] at h
      cases hc : t.capture amt with
      | error e =>
          simp only [Transaction.applyOp, hc]
          exact ⟨h1, h2⟩
      | ok t1 =>
          obtain ⟨ht1, _, hbound⟩ := Transaction.capture_ok hc
          subst ht1
          simp only [Transaction.applyOp, hc]
          refine ⟨?_, ?_⟩
          · simp only [capturedAmount_append]
            simpa using hbound
          · simp only [capturedAmount_append, refundedAmount_capture_append]
            omega
  | refund amt =>
      simp only [TxOp.amount] at h
      cases hc : t.refund amt with
      | error e =>
          simp only [Transaction.applyOp, hc]
          exact ⟨h1, h2⟩
      | ok t1 =>
          obtain ⟨ht1, hbound⟩ := Transaction.refund_ok hc
          subst ht1
          simp only [Transaction.applyOp, hc]
          refine ⟨?_, ?_⟩
          · simpa only [capturedAmount_refund_append] using h1
          · simp only [capturedAmount_refund_append, refundedAmount_append]
            omega

/-- A sequence of capture/refund calls with non-negative amounts preserves the
per-transaction sum invariants. -/
theorem TxInv_runOps {t : Transaction} {ops : List TxOp} (hI : TxInv t)
    (hops : ∀ op ∈ ops, 0 ≤ op.amount) : TxInv (t.runOps ops) := by
  induction ops generalizing t with
  | nil => exact hI
  | cons op ops ih =>
      exact ih (TxInv_applyOp hI (hops op (by simp)))
        (fun o ho => hops o (by simp [ho]))

/-! ### Claim theorems -/

/-- C1: the claim fails on the code.  Cancelling an already-cancelled
transaction is NOT a no-op: starting from balance 100, `authorize 100`
followed by one `cancel` leaves balance 100 and authorized_amount 0 with the
transaction Cancelled; a second `cancel` on the same id raises nothing and
releases the hold AGAIN, leaving balance 200 and authorized_amount -100.  The
hold-release step in `Account.cancel` runs on every non-raising call, not only
on the first cancellation transition. -/
theorem cancel_already_cancelled_double_releases :
    (PyBank.Account.run (PyBank.Account.init 100)
        [.authorize 100 0, .cancel PyBank.defaultTransactionId]).balance = 100 ∧
    (PyBank.Account.run (PyBank.Account.init 100)
        [.authorize 100 0, .cancel PyBank.defaultTransactionId]).authorized_amount = 0 ∧
    (PyBank.mapGet? (PyBank.Account.run (PyBank.Account.init 100)
        [.authorize 100 0, .cancel PyBank.defaultTransactionId]).transactions
        PyBank.defaultTransactionId).map PyBank.Transaction.status =
      some PyBank.Status.cancelled ∧
    ((PyBank.Account.run (PyBank.Account.init 100)
        [.authorize 100 0, .cancel PyBank.defaultTransactionId]).cancel
        PyBank.defaultTransactionId).2 = none ∧
    ((PyBank.Account.run (PyBank.Account.init 100)
        [.authorize 100 0, .cancel PyBank.defaultTransactionId]).cancel
        PyBank.defaultTransactionId).1.balance = 200 ∧
    ((PyBank.Account.run (PyBank.Account.init 100)
        [.authorize 100 0, .cancel PyBank.defaultTransactionId]).cancel
        PyBank.defaultTransactionId).1.authorized_amount = -100 := by
  decide

/-- C2: the claim fails on the code.  `Account.capture` appends the capture
record to the transaction BEFORE reducing the hold, so when the hold reduction
raises `InsufficientFundsError` the appended record survives.  Concretely:
from balance 150, authorize 100, cancel twice (the C1 bug leaves
authorized_amount at -100), authorize 50; the stored transaction then has no
captures, yet `capture(id, 10)` raises `InsufficientFundsError` AND leaves a
`Capture(10)` record on the transaction — a partial effect committed before
the failure. -/
theorem capture_mutates_before_error :
    (PyBank.mapGet? (PyBank.Account.run (PyBank.Account.init 150)
        [.authorize 100 0, .cancel PyBank.defaultTransactionId,
         .cancel PyBank.defaultTransactionId, .authorize 50 1]).transactions
        PyBank.defaultTransactionId).map PyBank.Transaction.captures = some [] ∧
    ((PyBank.Account.run (PyBank.Account.init 150)
        [.authorize 100 0, .cancel PyBank.defaultTransactionId,
         .cancel PyBank.defaultTransactionId, .authorize 50 1]).capture
        PyBank.defaultTransactionId 10).2 = some PyBank.Err.insufficientFunds ∧
    (PyBank.mapGet? ((PyBank.Account.run (PyBank.Account.init 150)
        [.authorize 100 0, .cancel PyBank.defaultTransactionId,
         .cancel PyBank.defaultTransactionId, .authorize 50 1]).capture
        PyBank.defaultTransactionId 10).1.transactions
        PyBank.defaultTransactionId).map PyBank.Transaction.captures =
      some [⟨10⟩] := by
  decide

/-- C3: the claim fails on the code.  The `id` default `uuid4()` of the
pydantic `Transaction` model is evaluated once at class-definition time, and
`Account.__add_transaction` never overrides it, so two successive successful
`authorize` calls return the SAME id, the second stored transaction overwrites
the first under that id, and only one transaction (the second: authorization
code 2 here) remains retrievable. -/
theorem authorize_shared_default_id :
    ((PyBank.Account.init 100).authorize 10 1).1 = some PyBank.defaultTransactionId ∧
    (((PyBank.Account.init 100).authorize 10 1).2.1.authorize 10 2).1 =
      some PyBank.defaultTransactionId ∧
    (((PyBank.Account.init 100).authorize 10 1).2.1.authorize 10 2).2.1.transactions.length = 1 ∧
    (PyBank.mapGet?
        (((PyBank.Account.init 100).authorize 10 1).2.1.authorize 10 2).2.1.transactions
        PyBank.defaultTransactionId).map PyBank.Transaction.authorization_code =
      some 2 := by
  decide

/-- C4: the claim fails on the code.  From a non-negative initial balance 100,
the operation sequence authorize 100, cancel, cancel (all succeeding) drives
`authorized_amount` to -100 < 0, because the second cancel releases the hold
again (the C1 double-release).  The non-negativity invariant does not survive
arbitrary sequences of public operations. -/
theorem authorized_amount_goes_negative :
    (PyBank.Account.run (PyBank.Account.init 100)
        [.authorize 100 0, .cancel PyBank.defaultTransactionId,
         .cancel PyBank.defaultTransactionId]).authorized_amount = -100 ∧
    (PyBank.Account.run (PyBank.Account.init 100)
        [.authorize 100 0, .cancel PyBank.defaultTransactionId,
         .cancel PyBank.defaultTransactionId]).authorized_amount < 0 := by
  decide

/-- C5, counterexample: the per-transaction sum invariants do NOT hold for
every sequence of capture/refund calls.  Neither `Transaction.capture` nor
`Account.capture` validates the sign of the amount, so on a transaction
authorized for 100 the calls capture 10, refund 10, capture -5 all succeed,
after which sum(refunds) = 10 > 5 = sum(captures). -/
theorem tx_sum_invariant_fails_on_negative_capture :
    ((PyBank.freshTransaction 100 0).runOps
        [.capture 10, .refund 10, .capture (-5)]).captures = [⟨10⟩, ⟨-5⟩] ∧
    ((PyBank.freshTransaction 100 0).runOps
        [.capture 10, .refund 10, .capture (-5)]).refunds = [⟨10⟩] ∧
    PyBank.capturedAmount ((PyBank.freshTransaction 100 0).runOps
        [.capture 10, .refund 10, .capture (-5)]) = 5 ∧
    PyBank.refundedAmount ((PyBank.freshTransaction 100 0).runOps
        [.capture 10, .refund 10, .capture (-5)]) = 10 ∧
    ¬ PyBank.TxInv ((PyBank.freshTransaction 100 0).runOps
        [.capture 10, .refund 10, .capture (-5)]) := by
  decide

/-- C5, amended: for every transaction created by authorize (non-negative
authorized amount, empty histories) and every finite sequence of capture and
refund calls in which every amount is NON-NEGATIVE (each call either
succeeding or raising an error, an erroring call leaving the transaction
unchanged), sum(captures) ≤ amount and sum(refunds) ≤ sum(captures) hold
after the sequence — hence, the sequence being arbitrary, at all times. -/
theorem tx_sum_invariants_nonneg_amounts (amount : Int) (code : Nat)
    (ops : List PyBank.TxOp) (hamt : 0 ≤ amount)
    (hops : ∀ op ∈ ops, 0 ≤ op.amount) :
    PyBank.TxInv ((PyBank.freshTransaction amount code).runOps ops) := by
  refine TxInv_runOps ⟨?_, ?_⟩ hops
  · simpa [capturedAmount, freshTransaction] using hamt
  · simp [capturedAmount, refundedAmount, freshTransaction]

/-- C5, witness: the amended theorem applied at amount 100 and the call
sequence capture 10, refund 5. -/
theorem tx_sum_invariants_nonneg_amounts_witness :
    (0 : Int) ≤ 100 ∧
    (∀ op ∈ ([.capture 10, .refund 5] : List PyBank.TxOp), 0 ≤ op.amount) ∧
    PyBank.TxInv ((PyBank.freshTransaction 100 0).runOps [.capture 10, .refund 5]) :=
  ⟨by decide, by decide,
   tx_sum_invariants_nonneg_amounts 100 0 [.capture 10, .refund 5]
     (by decide) (by decide)⟩

/-- C6, counterexample: on a fresh account, capture, cancel and refund with an
unknown transaction id fail with the built-in dictionary `KeyError` (the raw
`self.__transactions[transaction_id]` lookup), not with the
`TransactionNotFound` kind named by the spec — no such error class exists in
errors.py. -/
theorem unknown_transaction_yields_key_error :
    ((PyBank.Account.init 100).capture 5 7).2 = some PyBank.Err.keyError ∧
    ((PyBank.Account.init 100).cancel 5).2 = some PyBank.Err.keyError ∧
    ((PyBank.Account.init 100).refund 5 7).2 = some PyBank.Err.keyError ∧
    some PyBank.Err.keyError ≠ some PyBank.Err.specTransactionNotFound := by
  decide

/-- C6, amended: for every account, calling `Account.capture`,
`Account.cancel`, or `Account.refund` with a transaction id that is not
present in that account's transaction map fails with the built-in `KeyError`
(not a `TransactionNotFound` bank error, which the code does not define) and
leaves the account unchanged. -/
theorem unknown_transaction_key_error (a : PyBank.Account) (tid : Nat)
    (amount : Int) (h : PyBank.mapGet? a.transactions tid = none) :
    a.capture tid amount = (a, some PyBank.Err.keyError) ∧
    a.cancel tid = (a, some PyBank.Err.keyError) ∧
    a.refund tid amount = (a, some PyBank.Err.keyError) := by
  have hcap : a.capture tid amount = (a, some Err.keyError) := by
    unfold Account.capture
    rw [h]
  have hcan : a.cancel tid = (a, some Err.keyError) := by
    unfold Account.cancel
    rw [h]
  have href : a.refund tid amount = (a, some Err.keyError) := by
    unfold Account.refund
    rw [h]
  exact ⟨hcap, hcan, href⟩

/-- C6, witness: the amended theorem applied to a fresh account (empty
transaction map) at id 3. -/
theorem unknown_transaction_key_error_witness :
    PyBank.mapGet? (PyBank.Account.init 50).transactions 3 = none ∧
    ((PyBank.Account.init 50).capture 3 4 =
        (PyBank.Account.init 50, some PyBank.Err.keyError) ∧
     (PyBank.Account.init 50).cancel 3 =
        (PyBank.Account.init 50, some PyBank.Err.keyError) ∧
     (PyBank.Account.init 50).refund 3 4 =
        (PyBank.Account.init 50, some PyBank.Err.keyError)) :=
  ⟨rfl, unknown_transaction_key_error (PyBank.Account.init 50) 3 4 rfl⟩

/-- C7: the authorize contract.  `Account.authorize(amount)` fails with
`InvalidAmountError` when amount < 0 and with `InsufficientFundsError` when
balance < amount, leaving the account unchanged in both cases; otherwise it
decreases balance by amount, increases authorized_amount by amount, stores a
transaction in Authorized status carrying the authorization code generated for
this call, and returns that transaction's id. -/
theorem authorize_contract (a : PyBank.Account) (amount : Int) (code : Nat) :
    (amount < 0 →
      a.authorize amount code = (none, a, some PyBank.Err.invalidAmount)) ∧
    (0 ≤ amount → a.balance < amount →
      a.authorize amount code = (none, a, some PyBank.Err.insufficientFunds)) ∧
    (0 ≤ amount → amount ≤ a.balance →
      (a.authorize amount code).1 = some (PyBank.freshTransaction amount code).id ∧
      (a.authorize amount code).2.2 = none ∧
      (a.authorize amount code).2.1.balance = a.balance - amount ∧
      (a.authorize amount code).2.1.authorized_amount = a.authorized_amount + amount ∧
      PyBank.mapGet? (a.authorize amount code).2.1.transactions
          (PyBank.freshTransaction amount code).id =
        some (PyBank.freshTransaction amount code) ∧
      (PyBank.freshTransaction amount code).status = PyBank.Status.authorized ∧
      (PyBank.freshTransaction amount code).authorization_code = code) := by
  refine ⟨?_, ?_, ?_⟩
  · intro hlt
    unfold Account.authorize Account.authorize_amount
    rw [if_pos hlt]
  · intro h0 hins
    unfold Account.authorize Account.authorize_amount
    rw [if_neg (by omega), if_neg (by omega)]
  · intro h0 hle
    unfold Account.authorize Account.authorize_amount Account.add_transaction
    rw [if_neg (by omega), if_pos (by omega : a.balance ≥ amount)]
    exact ⟨rfl, rfl, rfl, rfl, mapGet_insert _ _ _, rfl, rfl⟩

/-- C7, witness: the contract applied to an account with balance 100,
amount 30 (both failure hypotheses falsified, success branch discharged). -/
theorem authorize_contract_witness :
    (0 : Int) ≤ 30 ∧ (30 : Int) ≤ (PyBank.Account.init 100).balance ∧
    (((PyBank.Account.init 100).authorize 30 7).1 =
        some (PyBank.freshTransaction 30 7).id ∧
     ((PyBank.Account.init 100).authorize 30 7).2.2 = none ∧
     ((PyBank.Account.init 100).authorize 30 7).2.1.balance =
        (PyBank.Account.init 100).balance - 30 ∧
     ((PyBank.Account.init 100).authorize 30 7).2.1.authorized_amount =
        (PyBank.Account.init 100).authorized_amount + 30 ∧
     PyBank.mapGet? ((PyBank.Account.init 100).authorize 30 7).2.1.transactions
        (PyBank.freshTransaction 30 7).id = some (PyBank.freshTransaction 30 7) ∧
     (PyBank.freshTransaction 30 7).status = PyBank.Status.authorized ∧
     (PyBank.freshTransaction 30 7).authorization_code = 7) :=
  ⟨by decide, by decide,
   (authorize_contract (PyBank.Account.init 100) 30 7).2.2 (by decide) (by decide)⟩

/-- C8, counterexample: `Account.capture` performs no amount validation, so
`Transaction.capture` IS reached with a negative amount, and the negative
capture record is appended: after authorize 100 on a fresh account,
`capture(id, -5)` raises nothing and the stored transaction's capture list
becomes [Capture(-5)]. -/
theorem negative_capture_appended_via_account :
    ((((PyBank.Account.init 100).authorize 100 7).2.1.capture
        PyBank.defaultTransactionId (-5)).2 = none) ∧
    (PyBank.mapGet? (((PyBank.Account.init 100).authorize 100 7).2.1.capture
        PyBank.defaultTransactionId (-5)).1.transactions
        PyBank.defaultTransactionId).map PyBank.Transaction.captures =
      some [⟨-5⟩] := by
  decide

/-- C8, amended: no amount validation happens at the Account level.  For every
stored transaction in Authorized status, `Account.capture` with a negative
amount whose addition stays within the authorized bound DOES append the
(negative) capture record to the transaction. -/
theorem account_capture_no_amount_validation (a : PyBank.Account) (tid : Nat)
    (tx : PyBank.Transaction) (amount : Int) (hneg : amount < 0)
    (hget : PyBank.mapGet? a.transactions tid = some tx)
    (hauth : tx.is_authorized = true)
    (hbound : PyBank.capturedAmount tx + amount ≤ tx.amount) :
    PyBank.mapGet? (a.capture tid amount).1.transactions tid =
      some { tx with captures := tx.captures ++ [⟨amount⟩] } := by
  have hc : tx.capture amount =
      Except.ok { tx with captures := tx.captures ++ [⟨amount⟩] } := by
    unfold Transaction.capture
    rw [if_neg (by simp [hauth]), if_neg (by omega)]
  unfold Account.capture
  simp only [hget, hc]
  unfold Account.reduce_hold
  by_cases hr : a.authorized_amount < amount
  · rw [if_pos hr]
    exact mapGet_insert _ _ _
  · rw [if_neg hr]
    exact mapGet_insert _ _ _

/-- C8, witness: the amended theorem applied after authorize 100 on a fresh
account, capturing -5. -/
theorem account_capture_no_amount_validation_witness :
    (-5 : Int) < 0 ∧
    PyBank.mapGet? ((PyBank.Account.init 100).authorize 100 7).2.1.transactions
      PyBank.defaultTransactionId = some (PyBank.freshTransaction 100 7) ∧
    (PyBank.freshTransaction 100 7).is_authorized = true ∧
    PyBank.capturedAmount (PyBank.freshTransaction 100 7) + (-5) ≤
      (PyBank.freshTransaction 100 7).amount ∧
    PyBank.mapGet? (((PyBank.Account.init 100).authorize 100 7).2.1.capture
        PyBank.defaultTransactionId (-5)).1.transactions
        PyBank.defaultTransactionId =
      some { PyBank.freshTransaction 100 7 with
             captures := (PyBank.freshTransaction 100 7).captures ++ [⟨-5⟩] } :=
  ⟨by decide, by decide, by decide, by decide,
   account_capture_no_amount_validation ((PyBank.Account.init 100).authorize 100 7).2.1
     PyBank.defaultTransactionId (PyBank.freshTransaction 100 7) (-5)
     (by decide) (by decide) (by decide) (by decide)⟩

/-- C9: the authorize–cancel round-trip.  For every account and every amount
with 0 ≤ amount ≤ balance, authorize(amount) immediately followed by cancel of
the returned transaction id raises nothing and returns both balance and
authorized_amount exactly to their pre-authorize values. -/
theorem authorize_cancel_roundtrip (a : PyBank.Account) (amount : Int)
    (code : Nat) (h0 : 0 ≤ amount) (h1 : amount ≤ a.balance) :
    (a.authorize amount code).1 = some PyBank.defaultTransactionId ∧
    ((a.authorize amount code).2.1.cancel PyBank.defaultTransactionId).2 = none ∧
    ((a.authorize amount code).2.1.cancel PyBank.defaultTransactionId).1.balance =
      a.balance ∧
    ((a.authorize amount code).2.1.cancel
        PyBank.defaultTransactionId).1.authorized_amount = a.authorized_amount := by
  have hn : ¬ amount < 0 := by omega
  have hg : a.balance ≥ amount := h1
  refine ⟨?_, ?_, ?_, ?_⟩ <;>
    simp only [Account.authorize, Account.authorize_amount, Account.add_transaction,
      if_neg hn, if_pos hg, Account.cancel, freshTransaction_id, mapGet_insert,
      freshTransaction_cancel, freshTransaction_amount] <;>
    first
      | rfl
      | trivial
      | omega

/-- C9, witness: the round-trip applied to a fresh account with balance 100
and amount 40. -/
theorem authorize_cancel_roundtrip_witness :
    (0 : Int) ≤ 40 ∧ (40 : Int) ≤ (PyBank.Account.init 100).balance ∧
    (((PyBank.Account.init 100).authorize 40 3).1 =
        some PyBank.defaultTransactionId ∧
     (((PyBank.Account.init 100).authorize 40 3).2.1.cancel
        PyBank.defaultTransactionId).2 = none ∧
     (((PyBank.Account.init 100).authorize 40 3).2.1.cancel
        PyBank.defaultTransactionId).1.balance = (PyBank.Account.init 100).balance ∧
     (((PyBank.Account.init 100).authorize 40 3).2.1.cancel
        PyBank.defaultTransactionId).1.authorized_amount =
       (PyBank.Account.init 100).authorized_amount) :=
  ⟨by decide, by decide,
   authorize_cancel_roundtrip (PyBank.Account.init 100) 40 3 (by decide) (by decide)⟩

/-- C10: negative refund amounts are accepted.  For every account and stored
transaction, `Account.refund` with amount < 0 succeeds without any error
whenever sum(existing refunds) + amount ≤ sum(captures) — a condition every
never-captured or cancelled transaction (sum(captures) = 0) satisfies —
appends the `Refund` record with the negative amount, and decreases the
account's balance by |amount|. -/
theorem negative_refund_accepted (a : PyBank.Account) (tid : Nat)
    (tx : PyBank.Transaction) (amount : Int) (hneg : amount < 0)
    (hget : PyBank.mapGet? a.transactions tid = some tx)
    (hbound : PyBank.refundedAmount tx + amount ≤ PyBank.capturedAmount tx) :
    (a.refund tid amount).2 = none ∧
    PyBank.mapGet? (a.refund tid amount).1.transactions tid =
      some { tx with refunds := tx.refunds ++ [⟨amount⟩] } ∧
    (a.refund tid amount).1.balance = a.balance - |amount| := by
  have hr : tx.refund amount =
      Except.ok { tx with refunds := tx.refunds ++ [⟨amount⟩] } := by
    unfold Transaction.refund
    rw [if_neg (by omega)]
  refine ⟨?_, ?_, ?_⟩ <;>
    simp only [Account.refund, hget, hr] <;>
    first
      | rfl
      | trivial
      | exact mapGet_insert _ _ _
      | (rw [abs_of_neg hneg]; omega)

/-- C10, witness: refunding -50 on a transaction with a single capture of 100
(account balance 900) succeeds and reduces the balance to 850. -/
theorem negative_refund_accepted_witness :
    (-50 : Int) < 0 ∧
    PyBank.mapGet? (PyBank.Account.mk 900 0
        [(0, PyBank.Transaction.mk 0 100 PyBank.Status.authorized 7 [⟨100⟩] [])]).transactions 0 =
      some (PyBank.Transaction.mk 0 100 PyBank.Status.authorized 7 [⟨100⟩] []) ∧
    PyBank.refundedAmount (PyBank.Transaction.mk 0 100 PyBank.Status.authorized 7 [⟨100⟩] []) +
        (-50) ≤
      PyBank.capturedAmount (PyBank.Transaction.mk 0 100 PyBank.Status.authorized 7 [⟨100⟩] []) ∧
    (((PyBank.Account.mk 900 0
        [(0, PyBank.Transaction.mk 0 100 PyBank.Status.authorized 7 [⟨100⟩] [])]).refund 0 (-50)).2 =
        none ∧
     PyBank.mapGet? ((PyBank.Account.mk 900 0
        [(0, PyBank.Transaction.mk 0 100 PyBank.Status.authorized 7 [⟨100⟩] [])]).refund 0 (-50)).1.transactions 0 =
       some { PyBank.Transaction.mk 0 100 PyBank.Status.authorized 7 [⟨100⟩] [] with
              refunds := (PyBank.Transaction.mk 0 100 PyBank.Status.authorized 7 [⟨100⟩] []).refunds ++ [⟨-50⟩] } ∧
     ((PyBank.Account.mk 900 0
        [(0, PyBank.Transaction.mk 0 100 PyBank.Status.authorized 7 [⟨100⟩] [])]).refund 0 (-50)).1.balance =
       (PyBank.Account.mk 900 0
        [(0, PyBank.Transaction.mk 0 100 PyBank.Status.authorized 7 [⟨100⟩] [])]).balance - |(-50 : Int)|) :=
  ⟨by decide, by decide, by decide,
   negative_refund_accepted
     (PyBank.Account.mk 900 0
       [(0, PyBank.Transaction.mk 0 100 PyBank.Status.authorized 7 [⟨100⟩] [])])
     0 (PyBank.Transaction.mk 0 100 PyBank.Status.authorized 7 [⟨100⟩] [])
     (-50) (by decide) (by decide) (by decide)⟩

end PyBank
